import Mathlib

/-!
# usbid: Describe and Classify

A shallow embedding of `usbid/describe.go` (package `usbid` of gousb).

The two functions of the file, `Describe` and `Classify`, take a Go
`interface{}` value, switch on its dynamic type, index the package-level
maps `Vendors` and `Classes`, and build their result with `fmt.Sprintf`.

* A Go map is an association list; `m[k]` in its comma-ok form is a lookup
  that yields an `Option`.
* The `interface{}` argument is a tagged value (`Value`): a `*usb.Descriptor`
  (possibly the nil pointer), a `usb.InterfaceSetup`, or a value of any other
  dynamic type, of which only the type name is observable (`%T`).
* A Go call either returns or panics: the functions return `Except Fault String`.
* `fmt.Sprintf` is an interpreter over the characters of the format string,
  for the verbs the file uses (`%s` and `%T`).
* The codes are unsigned machine integers (`usb.ID` is 16 bits wide, the class,
  subclass and protocol codes are `uint8`); the file does no arithmetic on
  them, so they are natural numbers here.
-/

namespace usbid

/-! ## Data model -/

/-- Modelled from the spec: the type `usb.ID` of vendor and product codes, declared
in package `usb` and absent from the sources at hand: a numeric code (16 bits). -/
abbrev ID := Nat

/-- The builtin `uint8` of the class, subclass and protocol codes. -/
abbrev uint8 := Nat

/-- A Go map with numeric keys: the list of its key/value pairs. -/
abbrev GoMap (α : Type) := List (Nat × α)

/-- The comma-ok index expression `v, ok := m[k]`: `some v` when `k` is a key of `m`,
`none` when it is not. -/
def GoMap.index {α : Type} (m : GoMap α) (k : Nat) : Option α :=
  List.lookup k m

/-- Modelled from the spec: the vendor entry (type `Vendor` of package `usbid`, declared
outside `describe.go`): a name and a mapping from product code to product name. -/
structure Vendor where
  Name : String
  Product : GoMap String

/-- Modelled from the spec: the subclass entry (type `SubClass`, declared outside
`describe.go`): a name and a mapping from protocol code to protocol name. -/
structure SubClass where
  Name : String
  Protocol : GoMap String

/-- Modelled from the spec: the class entry (type `Class`, declared outside
`describe.go`): a name and a mapping from subclass code to subclass entry. -/
structure Class where
  Name : String
  SubClass : GoMap SubClass

/-- Modelled from the spec: the reference table, that is the package-level variables
`Vendors` and `Classes` (declared outside `describe.go`) that the two functions read. -/
structure Tables where
  Vendors : GoMap Vendor
  Classes : GoMap Class

/-- Modelled from the spec: the fields of `usb.Descriptor` (package `usb`) that
`describe.go` reads. -/
structure Descriptor where
  Vendor : ID
  Product : ID
  Class : uint8
  SubClass : uint8
  Protocol : uint8

/-- Modelled from the spec: the fields of `usb.InterfaceSetup` (package `usb`) that
`describe.go` reads. -/
structure InterfaceSetup where
  IfClass : uint8
  IfSubClass : uint8
  IfProtocol : uint8

/-- A value of Go type `interface{}`, as far as the type switches of `describe.go`
tell values apart. `descriptor none` is the nil pointer of type `*usb.Descriptor`;
`other t` is a value of any other dynamic type, `t` being the name `%T` prints for it
(the nil interface value is `other "<nil>"`). -/
inductive Value where
  | descriptor (ptr : Option Descriptor)
  | interfaceSetup (s : InterfaceSetup)
  | other (typeName : String)

/-- The name of the dynamic type of a value, as `%T` prints it. -/
def Value.typeName : Value → String
  | .descriptor _ => "*usb.Descriptor"
  | .interfaceSetup _ => "usb.InterfaceSetup"
  | .other t => t

/-- How a Go call can end other than by returning. -/
inductive Fault where
  /-- The run-time panic of a field access through a nil pointer. -/
  | nilDereference
  /-- A format string or operand outside the part of `fmt` that is modelled. -/
  | unsupportedFormat
  deriving DecidableEq, Repr

/-! ## fmt.Sprintf -/

/-- An operand of `fmt.Sprintf`. -/
inductive Arg where
  /-- A Go `string`. -/
  | string (s : String)
  /-- A value whose type has a `String() string` method; `text` is what the method returns. -/
  | stringer (text : String)
  /-- A `uint8`, which has no `String` method. -/
  | uint8 (n : Nat)
  /-- Any value, of which only the name of the dynamic type is known. -/
  | value (type : String)

/-- One verb applied to one operand. `%T` prints the type of the operand. `%s` prints a
string as it is and a `Stringer` through its `String` method; an integer is the wrong
operand for `%s`, and `fmt` then writes `%!s(type=value)` with the value in decimal. -/
def printArg (verb : Char) (a : Arg) : Except Fault String :=
  if verb = 'T' then
    match a with
    | .string _ => .ok "string"
    | .uint8 _ => .ok "uint8"
    | .value t => .ok t
    | .stringer _ => .error .unsupportedFormat
  else if verb = 's' then
    match a with
    | .string s => .ok s
    | .stringer t => .ok t
    | .uint8 n => .ok ("%!s(uint8=" ++ toString n ++ ")")
    | .value _ => .error .unsupportedFormat
  else .error .unsupportedFormat

/-- The loop of `fmt.Sprintf` over the format: a character other than `%` is copied, and
`%` followed by a verb consumes the next operand. Flags, widths, `%%`, and a number of
operands other than the number of verbs are outside the model. -/
def doPrintf : List Char → List Arg → Except Fault String
  | [], [] => .ok ""
  | [], _ :: _ => .error .unsupportedFormat
  | c :: rest, args =>
    if c = '%' then
      match rest, args with
      | verb :: rest, a :: args =>
        match printArg verb a, doPrintf rest args with
        | .ok s, .ok t => .ok (s ++ t)
        | .error e, _ => .error e
        | _, .error e => .error e
      | _, _ => .error .unsupportedFormat
    else
      match doPrintf rest args with
      | .ok t => .ok (String.singleton c ++ t)
      | .error e => .error e

/-- The call `fmt.Sprintf(format, args...)`. -/
def Sprintf (format : String) (args : List Arg) : Except Fault String :=
  doPrintf format.data args

/-! ## describe.go -/

/-- Modelled from the spec: the `String` method of a vendor entry (declared outside
`describe.go`), which gives the vendor name. -/
def Vendor.String (v : Vendor) : String := v.Name

/-- Modelled from the spec: the `String` method of a class entry (declared outside
`describe.go`), which gives the class name. -/
def Class.String (c : Class) : String := c.Name

/-- Modelled from the spec: the `String` method of a subclass entry (declared outside
`describe.go`), which gives the subclass name. -/
def SubClass.String (s : SubClass) : String := s.Name

/-- The function `Describe`. The string form of a `usb.ID` (its `String` method, in package
`usb`) is the parameter `idString`. After the type switch, the vendor is looked up in
`Vendors`, then the product in the product mapping of the vendor; the field access
`val.Vendor` comes first and panics on a nil pointer. -/
def Describe (idString : ID → String) (t : Tables) (val : Value) : Except Fault String :=
  match val with
  | .descriptor ptr =>
    match ptr with
    | none => .error .nilDereference
    | some d =>
      match t.Vendors.index d.Vendor with
      | some v =>
        match v.Product.index d.Product with
        | some p => Sprintf "%s (%s)" [.string p, .stringer v.String]
        | none => Sprintf "Unknown (%s)" [.stringer v.String]
      | none =>
        Sprintf "Unknown %s:%s" [.stringer (idString d.Vendor), .stringer (idString d.Product)]
  | _ => Sprintf "Unknown (%T)" [.value val.typeName]

/-- The second half of `Classify` (after the type switch): the three nested lookups on the
codes `class`, `sub`, `proto`, which are variables of type `uint8`. -/
def classifyCodes (t : Tables) (cls sub proto : uint8) : Except Fault String :=
  match t.Classes.index cls with
  | some c =>
    match c.SubClass.index sub with
    | some s =>
      match s.Protocol.index proto with
      | some p => Sprintf "%s (%s) %s" [.stringer c.String, .stringer s.String, .string p]
      | none => Sprintf "%s (%s)" [.stringer c.String, .stringer s.String]
    | none => Sprintf "%s" [.stringer c.String]
  | none => Sprintf "Unknown %s.%s.%s" [.uint8 cls, .uint8 sub, .uint8 proto]

/-- The function `Classify`. The type switch takes the three codes from a descriptor or
from an interface setup, and returns at once in its default case. -/
def Classify (t : Tables) (val : Value) : Except Fault String :=
  match val with
  | .descriptor ptr =>
    match ptr with
    | none => .error .nilDereference
    | some d => classifyCodes t d.Class d.SubClass d.Protocol
  | .interfaceSetup s => classifyCodes t s.IfClass s.IfSubClass s.IfProtocol
  | .other _ => Sprintf "Unknown (%T)" [.value val.typeName]

/-! ## Vocabulary of the statements -/

/-- The value `val` is a descriptor (through a non-nil pointer) or an interface setup, and
its class, subclass and protocol codes are `cls`, `sub` and `proto`. -/
def Value.hasCodes (val : Value) (cls sub proto : uint8) : Prop :=
  match val with
  | .descriptor (some d) => d.Class = cls ∧ d.SubClass = sub ∧ d.Protocol = proto
  | .interfaceSetup s => s.IfClass = cls ∧ s.IfSubClass = sub ∧ s.IfProtocol = proto
  | _ => False

/-- The value `val` is a descriptor reference (a `*usb.Descriptor`, nil or not). -/
def Value.isDescriptor : Value → Bool
  | .descriptor _ => true
  | _ => false

/-- The value `val` is an interface setup (a `usb.InterfaceSetup`). -/
def Value.isInterfaceSetup : Value → Bool
  | .interfaceSetup _ => true
  | _ => false

/-! ## Sample data -/

/-- A vendor table with the one vendor 0x1d6b, "Linux Foundation", and its product 0x0002,
and a class table with class 0x09, "Hub", which has no subclass, and class 0x00. -/
def sampleTables : Tables where
  Vendors := [(0x1d6b, ⟨"Linux Foundation", [(0x0002, "2.0 root hub")]⟩)]
  Classes :=
    [(0x09, ⟨"Hub", []⟩),
     (0x00, ⟨"(Defined at Interface level)", []⟩),
     (0x03, ⟨"Human Interface Device", [(0x01, ⟨"Boot Interface Subclass", [(0x01, "Keyboard")]⟩)]⟩)]

/-- A root hub as the sample table knows it. -/
def rootHub : Descriptor := ⟨0x1d6b, 0x0002, 0x09, 0x00, 0x00⟩

/-- A sample string form of an ID: its decimal digits. -/
def sampleIdString (id : ID) : String := toString id

/-- A second table with the vendors of the sample table and no class at all. -/
def vendorsOnlyTables : Tables where
  Vendors := sampleTables.Vendors
  Classes := []

/-- The text `s` contains the marker "Unknown": the characters of the marker are a
contiguous part of the characters of `s`. -/
def hasUnknownMarker (s : String) : Prop :=
  List.IsInfix "Unknown".data s.data

/-! ## The calls as steps on the package-level variables

`Vendors` and `Classes` are package-level variables, so a call is a step from the tables
before it to an outcome and the tables after it. The steps a Go body can make on them are
reading a variable, assigning to it, and returning or panicking; an index expression
`m[k]` only reads `m` (a missing key gives the zero value and `ok = false`, and nothing is
inserted). -/

/-- A Go computation over the package-level variables: from the tables before it, its
outcome and the tables after it. The tables survive a panic. -/
def GoM (α : Type) : Type := Tables → Except Fault α × Tables

/-- Completion with a result. -/
def GoM.ret {α : Type} (a : α) : GoM α := fun t => (.ok a, t)

/-- Completion of an expression evaluation that touches no package-level variable. -/
def GoM.eval {α : Type} (r : Except Fault α) : GoM α := fun t => (r, t)

/-- Sequencing: the second computation starts from the tables the first one left, and is
skipped after a panic. -/
def GoM.bind {α β : Type} (x : GoM α) (f : α → GoM β) : GoM β := fun t =>
  match x t with
  | (.ok a, t1) => f a t1
  | (.error e, t1) => (.error e, t1)

/-- Reading the variable `Vendors`. -/
def GoM.readVendors : GoM (GoMap Vendor) := fun t => (.ok t.Vendors, t)

/-- Reading the variable `Classes`. -/
def GoM.readClasses : GoM (GoMap Class) := fun t => (.ok t.Classes, t)

/-- Assigning to the variable `Vendors` (no statement of `describe.go` does). -/
def GoM.writeVendors (m : GoMap Vendor) : GoM Unit := fun t => (.ok (), { t with Vendors := m })

/-- Assigning to the variable `Classes` (no statement of `describe.go` does). -/
def GoM.writeClasses (m : GoMap Class) : GoM Unit := fun t => (.ok (), { t with Classes := m })

/-- The function `Describe` as a step on the package-level variables, statement by
statement: the type switch, the read of `Vendors`, the two index expressions, and the
return of the formatted string. -/
def DescribeStep (idString : ID → String) (val : Value) : GoM String :=
  match val with
  | .descriptor ptr =>
    match ptr with
    | none => GoM.eval (.error .nilDereference)
    | some d =>
      GoM.bind GoM.readVendors fun vendors =>
        match vendors.index d.Vendor with
        | some v =>
          match v.Product.index d.Product with
          | some p => GoM.eval (Sprintf "%s (%s)" [.string p, .stringer v.String])
          | none => GoM.eval (Sprintf "Unknown (%s)" [.stringer v.String])
        | none =>
          GoM.eval (Sprintf "Unknown %s:%s"
            [.stringer (idString d.Vendor), .stringer (idString d.Product)])
  | _ => GoM.eval (Sprintf "Unknown (%T)" [.value val.typeName])

/-- The second half of `Classify` as a step on the package-level variables: the read of
`Classes`, the three index expressions, and the return of the formatted string. -/
def classifyCodesStep (cls sub proto : uint8) : GoM String :=
  GoM.bind GoM.readClasses fun classes =>
    match classes.index cls with
    | some c =>
      match c.SubClass.index sub with
      | some s =>
        match s.Protocol.index proto with
        | some p =>
          GoM.eval (Sprintf "%s (%s) %s" [.stringer c.String, .stringer s.String, .string p])
        | none => GoM.eval (Sprintf "%s (%s)" [.stringer c.String, .stringer s.String])
      | none => GoM.eval (Sprintf "%s" [.stringer c.String])
    | none => GoM.eval (Sprintf "Unknown %s.%s.%s" [.uint8 cls, .uint8 sub, .uint8 proto])

/-- The function `Classify` as a step on the package-level variables. -/
def ClassifyStep (val : Value) : GoM String :=
  match val with
  | .descriptor ptr =>
    match ptr with
    | none => GoM.eval (.error .nilDereference)
    | some d => classifyCodesStep d.Class d.SubClass d.Protocol
  | .interfaceSetup s => classifyCodesStep s.IfClass s.IfSubClass s.IfProtocol
  | .other _ => GoM.eval (Sprintf "Unknown (%T)" [.value val.typeName])

/-! ## Lemmas on Sprintf, one per format of the file -/

theorem Sprintf_paren (a b : String) :
    Sprintf "%s (%s)" [.string a, .stringer b] = .ok (a ++ " (" ++ b ++ ")") := by
  simp [Sprintf, doPrintf, printArg]
  apply String.ext
  simp [String.data_append]

theorem Sprintf_paren_stringers (a b : String) :
    Sprintf "%s (%s)" [.stringer a, .stringer b] = .ok (a ++ " (" ++ b ++ ")") := by
  simp [Sprintf, doPrintf, printArg]
  apply String.ext
  simp [String.data_append]

theorem Sprintf_unknown_paren (b : String) :
    Sprintf "Unknown (%s)" [.stringer b] = .ok ("Unknown (" ++ b ++ ")") := by
  simp [Sprintf, doPrintf, printArg]
  apply String.ext
  simp [String.data_append]

theorem Sprintf_unknown_ids (a b : String) :
    Sprintf "Unknown %s:%s" [.stringer a, .stringer b]
      = .ok ("Unknown " ++ a ++ ":" ++ b) := by
  simp [Sprintf, doPrintf, printArg]
  apply String.ext
  simp [String.data_append]

theorem Sprintf_unknown_type (t : String) :
    Sprintf "Unknown (%T)" [.value t] = .ok ("Unknown (" ++ t ++ ")") := by
  simp [Sprintf, doPrintf, printArg]
  apply String.ext
  simp [String.data_append]

theorem Sprintf_three (a b c : String) :
    Sprintf "%s (%s) %s" [.stringer a, .stringer b, .string c]
      = .ok (a ++ " (" ++ b ++ ") " ++ c) := by
  simp [Sprintf, doPrintf, printArg]
  apply String.ext
  simp [String.data_append]

theorem Sprintf_one (a : String) : Sprintf "%s" [.stringer a] = .ok a := by
  simp [Sprintf, doPrintf, printArg]

theorem Sprintf_unknown_codes (a b c : Nat) :
    Sprintf "Unknown %s.%s.%s" [.uint8 a, .uint8 b, .uint8 c]
      = .ok ("Unknown %!s(uint8=" ++ toString a ++ ").%!s(uint8=" ++ toString b
          ++ ").%!s(uint8=" ++ toString c ++ ")") := by
  simp [Sprintf, doPrintf, printArg]
  apply String.ext
  simp [String.data_append]

/-! ## Describe -/

/-- C1: when the vendor code of the descriptor is a key of the vendor table and its
product code is a key of the product mapping of that vendor, Describe returns the product
name, a space, and the vendor name in parentheses. -/
theorem Describe_product_and_vendor (idString : ID → String) (t : Tables) (d : Descriptor)
    (v : Vendor) (p : String)
    (hv : t.Vendors.index d.Vendor = some v) (hp : v.Product.index d.Product = some p) :
    Describe idString t (.descriptor (some d)) = .ok (p ++ " (" ++ v.Name ++ ")") := by
  simp only [Describe, hv, hp, Vendor.String]
  exact Sprintf_paren p v.Name

/-- Witness of C1: vendor 0x1d6b, "Linux Foundation", with product 0x0002,
"2.0 root hub". -/
theorem Describe_product_and_vendor_witness :
    Describe sampleIdString sampleTables (.descriptor (some rootHub))
      = .ok "2.0 root hub (Linux Foundation)" :=
  Describe_product_and_vendor sampleIdString sampleTables rootHub
    ⟨"Linux Foundation", [(0x0002, "2.0 root hub")]⟩ "2.0 root hub" rfl rfl

/-- C2: when the vendor code is a key of the vendor table and the product code is not a
key of the product mapping of that vendor, Describe returns "Unknown (vendor name)",
whatever the product code. -/
theorem Describe_unknown_product (idString : ID → String) (t : Tables) (d : Descriptor)
    (v : Vendor)
    (hv : t.Vendors.index d.Vendor = some v) (hp : v.Product.index d.Product = none) :
    Describe idString t (.descriptor (some d)) = .ok ("Unknown (" ++ v.Name ++ ")") := by
  simp only [Describe, hv, hp, Vendor.String]
  exact Sprintf_unknown_paren v.Name

/-- Witness of C2: the known vendor 0x1d6b with the product code 0x0003, which the sample
table does not have. -/
theorem Describe_unknown_product_witness :
    Describe sampleIdString sampleTables (.descriptor (some ⟨0x1d6b, 0x0003, 0x09, 0, 0⟩))
      = .ok "Unknown (Linux Foundation)" :=
  Describe_unknown_product sampleIdString sampleTables ⟨0x1d6b, 0x0003, 0x09, 0, 0⟩
    ⟨"Linux Foundation", [(0x0002, "2.0 root hub")]⟩ rfl rfl

/-- C3: when the vendor code is not a key of the vendor table, Describe returns "Unknown ",
the string form of the vendor code, a colon, and the string form of the product code,
whatever the product code and whatever the table holds for other vendors. -/
theorem Describe_unknown_vendor (idString : ID → String) (t : Tables) (d : Descriptor)
    (hv : t.Vendors.index d.Vendor = none) :
    Describe idString t (.descriptor (some d))
      = .ok ("Unknown " ++ idString d.Vendor ++ ":" ++ idString d.Product) := by
  simp only [Describe, hv]
  exact Sprintf_unknown_ids (idString d.Vendor) (idString d.Product)

/-- Witness of C3: vendor 0x046d is not in the sample table, the product code 0x0002 is
one that another vendor has. -/
theorem Describe_unknown_vendor_witness :
    Describe sampleIdString sampleTables (.descriptor (some ⟨0x046d, 0x0002, 0, 0, 0⟩))
      = .ok ("Unknown " ++ sampleIdString 0x046d ++ ":" ++ sampleIdString 0x0002) :=
  Describe_unknown_vendor sampleIdString sampleTables ⟨0x046d, 0x0002, 0, 0, 0⟩ rfl

/-! ## Classify -/

/-- C4: when the class code is a key of the class table, the subclass code a key of the
subclass mapping of that class, and the protocol code a key of the protocol mapping of
that subclass, Classify returns "class name (subclass name) protocol name", for a
descriptor and for an interface setup alike. -/
theorem Classify_class_subclass_protocol (t : Tables) (val : Value) (cls sub proto : uint8)
    (c : Class) (s : SubClass) (p : String)
    (hval : val.hasCodes cls sub proto)
    (hc : t.Classes.index cls = some c) (hs : c.SubClass.index sub = some s)
    (hp : s.Protocol.index proto = some p) :
    Classify t val = .ok (c.Name ++ " (" ++ s.Name ++ ") " ++ p) := by
  have key : classifyCodes t cls sub proto = .ok (c.Name ++ " (" ++ s.Name ++ ") " ++ p) := by
    simp only [classifyCodes, hc, hs, hp, Class.String, SubClass.String]
    exact Sprintf_three c.Name s.Name p
  match val, hval with
  | .descriptor (some d), ⟨h1, h2, h3⟩ => simpa only [Classify, h1, h2, h3] using key
  | .interfaceSetup i, ⟨h1, h2, h3⟩ => simpa only [Classify, h1, h2, h3] using key

/-- Witness of C4: a boot keyboard, as a descriptor and as an interface setup. -/
theorem Classify_class_subclass_protocol_witness :
    Classify sampleTables (.descriptor (some ⟨0x046d, 0xc31c, 0x03, 0x01, 0x01⟩))
        = .ok "Human Interface Device (Boot Interface Subclass) Keyboard"
      ∧ Classify sampleTables (.interfaceSetup ⟨0x03, 0x01, 0x01⟩)
        = .ok "Human Interface Device (Boot Interface Subclass) Keyboard" :=
  ⟨Classify_class_subclass_protocol sampleTables _ 0x03 0x01 0x01
      ⟨"Human Interface Device", [(0x01, ⟨"Boot Interface Subclass", [(0x01, "Keyboard")]⟩)]⟩
      ⟨"Boot Interface Subclass", [(0x01, "Keyboard")]⟩ "Keyboard" ⟨rfl, rfl, rfl⟩ rfl rfl rfl,
   Classify_class_subclass_protocol sampleTables _ 0x03 0x01 0x01
      ⟨"Human Interface Device", [(0x01, ⟨"Boot Interface Subclass", [(0x01, "Keyboard")]⟩)]⟩
      ⟨"Boot Interface Subclass", [(0x01, "Keyboard")]⟩ "Keyboard" ⟨rfl, rfl, rfl⟩ rfl rfl rfl⟩

/-- C5: when the class code is a key of the class table and the subclass code is not a key
of the subclass mapping of that class, Classify returns the class name alone, whatever
the subclass and protocol codes. -/
theorem Classify_class_only (t : Tables) (val : Value) (cls sub proto : uint8) (c : Class)
    (hval : val.hasCodes cls sub proto)
    (hc : t.Classes.index cls = some c) (hs : c.SubClass.index sub = none) :
    Classify t val = .ok c.Name := by
  have key : classifyCodes t cls sub proto = .ok c.Name := by
    simp only [classifyCodes, hc, hs, Class.String]
    exact Sprintf_one c.Name
  match val, hval with
  | .descriptor (some d), ⟨h1, h2, h3⟩ => simpa only [Classify, h1, h2, h3] using key
  | .interfaceSetup i, ⟨h1, h2, h3⟩ => simpa only [Classify, h1, h2, h3] using key

/-- Witness of C5: class 0x09, "Hub", with an empty subclass mapping. -/
theorem Classify_class_only_witness :
    Classify sampleTables (.descriptor (some rootHub)) = .ok "Hub"
      ∧ Classify sampleTables (.interfaceSetup ⟨0x09, 0x07, 0x02⟩) = .ok "Hub" :=
  ⟨Classify_class_only sampleTables _ 0x09 0x00 0x00 ⟨"Hub", []⟩ ⟨rfl, rfl, rfl⟩ rfl rfl,
   Classify_class_only sampleTables _ 0x09 0x07 0x02 ⟨"Hub", []⟩ ⟨rfl, rfl, rfl⟩ rfl rfl⟩

/-- C6: when the class code and the subclass code resolve and the protocol code is not a
key of the protocol mapping of that subclass, Classify returns
"class name (subclass name)", whatever the protocol code. -/
theorem Classify_class_subclass (t : Tables) (val : Value) (cls sub proto : uint8)
    (c : Class) (s : SubClass)
    (hval : val.hasCodes cls sub proto)
    (hc : t.Classes.index cls = some c) (hs : c.SubClass.index sub = some s)
    (hp : s.Protocol.index proto = none) :
    Classify t val = .ok (c.Name ++ " (" ++ s.Name ++ ")") := by
  have key : classifyCodes t cls sub proto = .ok (c.Name ++ " (" ++ s.Name ++ ")") := by
    simp only [classifyCodes, hc, hs, hp, Class.String, SubClass.String]
    exact Sprintf_paren_stringers c.Name s.Name
  match val, hval with
  | .descriptor (some d), ⟨h1, h2, h3⟩ => simpa only [Classify, h1, h2, h3] using key
  | .interfaceSetup i, ⟨h1, h2, h3⟩ => simpa only [Classify, h1, h2, h3] using key

/-- Witness of C6: a boot-subclass device with the protocol code 0x7f, which the sample
table does not have. -/
theorem Classify_class_subclass_witness :
    Classify sampleTables (.interfaceSetup ⟨0x03, 0x01, 0x7f⟩)
      = .ok "Human Interface Device (Boot Interface Subclass)" :=
  Classify_class_subclass sampleTables _ 0x03 0x01 0x7f
    ⟨"Human Interface Device", [(0x01, ⟨"Boot Interface Subclass", [(0x01, "Keyboard")]⟩)]⟩
    ⟨"Boot Interface Subclass", [(0x01, "Keyboard")]⟩ ⟨rfl, rfl, rfl⟩ rfl rfl rfl

/-- What Classify returns when the class code is not a key of the class table: each of the
three codes is a `uint8` under the verb `%s`, so each is written as `%!s(uint8=n)`. -/
theorem Classify_class_absent (t : Tables) (val : Value) (cls sub proto : uint8)
    (hval : val.hasCodes cls sub proto) (hc : t.Classes.index cls = none) :
    Classify t val
      = .ok ("Unknown %!s(uint8=" ++ toString cls ++ ").%!s(uint8=" ++ toString sub
          ++ ").%!s(uint8=" ++ toString proto ++ ")") := by
  have key := Sprintf_unknown_codes cls sub proto
  match val, hval with
  | .descriptor (some d), ⟨h1, h2, h3⟩ => simpa only [Classify, classifyCodes, h1, h2, h3, hc] using key
  | .interfaceSetup i, ⟨h1, h2, h3⟩ => simpa only [Classify, classifyCodes, h1, h2, h3, hc] using key

/-- C7, at a failing input: class 0xff is not a key of the sample class table, and for the
descriptor with class 0xff, subclass 1 and protocol 2 Classify returns
"Unknown %!s(uint8=255).%!s(uint8=1).%!s(uint8=2)", which is neither the three numbers
separated by dots in decimal nor in hexadecimal. -/
theorem Classify_unknown_class_at_ff :
    sampleTables.Classes.index 0xff = none
      ∧ Classify sampleTables (.descriptor (some ⟨0x1d6b, 0x0002, 0xff, 1, 2⟩))
          = .ok "Unknown %!s(uint8=255).%!s(uint8=1).%!s(uint8=2)"
      ∧ Classify sampleTables (.descriptor (some ⟨0x1d6b, 0x0002, 0xff, 1, 2⟩))
          ≠ .ok "Unknown 255.1.2"
      ∧ Classify sampleTables (.descriptor (some ⟨0x1d6b, 0x0002, 0xff, 1, 2⟩))
          ≠ .ok "Unknown ff.01.02" := by
  have h : Classify sampleTables (.descriptor (some ⟨0x1d6b, 0x0002, 0xff, 1, 2⟩))
      = .ok "Unknown %!s(uint8=255).%!s(uint8=1).%!s(uint8=2)" := rfl
  refine ⟨rfl, h, ?_, ?_⟩
  · rw [h]
    intro e
    injection e with e
    exact absurd e (by decide)
  · rw [h]
    intro e
    injection e with e
    exact absurd e (by decide)

/-! ## Values of another type -/

/-- C8: for a value that is not a descriptor reference (an interface setup, for one),
Describe returns "Unknown (type name)" with the name of the dynamic type of the value,
and the result is the same for every table and every string form of the IDs: no table
entry is consulted. -/
theorem Describe_unsupported_type (idString : ID → String) (t : Tables) (val : Value)
    (hval : val.isDescriptor = false) :
    Describe idString t val = .ok ("Unknown (" ++ val.typeName ++ ")")
      ∧ ∀ (idString2 : ID → String) (t2 : Tables),
          Describe idString2 t2 val = Describe idString t val := by
  cases val with
  | descriptor ptr => simp [Value.isDescriptor] at hval
  | interfaceSetup i => exact ⟨Sprintf_unknown_type _, fun _ _ => rfl⟩
  | other n => exact ⟨Sprintf_unknown_type _, fun _ _ => rfl⟩

/-- Witness of C8: an interface setup whose codes are those of the hub class. -/
theorem Describe_unsupported_type_witness :
    Describe sampleIdString sampleTables (.interfaceSetup ⟨0x09, 0, 0⟩)
      = .ok "Unknown (usb.InterfaceSetup)" :=
  (Describe_unsupported_type sampleIdString sampleTables (.interfaceSetup ⟨0x09, 0, 0⟩) rfl).1

/-- C9: for a value that is neither a descriptor reference nor an interface setup,
Classify returns "Unknown (type name)" with the name of the dynamic type of the value,
whatever the class table holds (class code 0 included). -/
theorem Classify_unsupported_type (t : Tables) (val : Value)
    (hd : val.isDescriptor = false) (hi : val.isInterfaceSetup = false) :
    Classify t val = .ok ("Unknown (" ++ val.typeName ++ ")") := by
  cases val with
  | descriptor ptr => simp [Value.isDescriptor] at hd
  | interfaceSetup i => simp [Value.isInterfaceSetup] at hi
  | other n => exact Sprintf_unknown_type _

/-- Witness of C9: a Go string passed to Classify, with a class table that has the class
code 0 as a key. -/
theorem Classify_unsupported_type_witness :
    (sampleTables.Classes.index 0).isSome = true
      ∧ Classify sampleTables (.other "string") = .ok "Unknown (string)" :=
  ⟨rfl, Classify_unsupported_type sampleTables (.other "string") rfl rfl⟩

/-! ## Totality -/

/-- C10, counterexample: on the nil pointer of type `*usb.Descriptor` the type switch of
Describe takes the descriptor case, the field access panics, and no string is returned. -/
theorem Describe_nil_descriptor_panics :
    Describe sampleIdString sampleTables (.descriptor none) = .error .nilDereference
      ∧ ¬ ∃ s, Describe sampleIdString sampleTables (.descriptor none) = .ok s := by
  refine ⟨rfl, ?_⟩
  rintro ⟨s, hs⟩
  simp [Describe] at hs

/-- C10, amended: for every table, every string form of the IDs and every value other
than the nil descriptor reference, Describe returns a string. -/
theorem Describe_returns (idString : ID → String) (t : Tables) (val : Value)
    (hval : val ≠ .descriptor none) :
    ∃ s, Describe idString t val = .ok s := by
  cases val with
  | descriptor ptr =>
    cases ptr with
    | none => exact absurd rfl hval
    | some d =>
      cases hv : t.Vendors.index d.Vendor with
      | none =>
        refine ⟨"Unknown " ++ idString d.Vendor ++ ":" ++ idString d.Product, ?_⟩
        simp only [Describe, hv]
        exact Sprintf_unknown_ids _ _
      | some v =>
        cases hp : v.Product.index d.Product with
        | none =>
          refine ⟨"Unknown (" ++ v.Name ++ ")", ?_⟩
          simp only [Describe, hv, hp]
          exact Sprintf_unknown_paren _
        | some p =>
          refine ⟨p ++ " (" ++ v.Name ++ ")", ?_⟩
          simp only [Describe, hv, hp]
          exact Sprintf_paren _ _
  | interfaceSetup i => exact ⟨_, Sprintf_unknown_type _⟩
  | other n => exact ⟨_, Sprintf_unknown_type _⟩

/-- Witness of C10, amended: the root hub through a non-nil pointer. -/
theorem Describe_returns_witness :
    ∃ s, Describe sampleIdString sampleTables (.descriptor (some rootHub)) = .ok s :=
  Describe_returns sampleIdString sampleTables (.descriptor (some rootHub)) (by simp)

/-- What the second half of Classify returns: a string in each of its four branches. -/
theorem classifyCodes_returns (t : Tables) (cls sub proto : uint8) :
    ∃ s, classifyCodes t cls sub proto = .ok s := by
  cases hc : t.Classes.index cls with
  | none =>
    refine ⟨"Unknown %!s(uint8=" ++ toString cls ++ ").%!s(uint8=" ++ toString sub
      ++ ").%!s(uint8=" ++ toString proto ++ ")", ?_⟩
    simp only [classifyCodes, hc]
    exact Sprintf_unknown_codes cls sub proto
  | some c =>
    cases hs : c.SubClass.index sub with
    | none =>
      refine ⟨c.Name, ?_⟩
      simp only [classifyCodes, hc, hs]
      exact Sprintf_one _
    | some sc =>
      cases hp : sc.Protocol.index proto with
      | none =>
        refine ⟨c.Name ++ " (" ++ sc.Name ++ ")", ?_⟩
        simp only [classifyCodes, hc, hs, hp]
        exact Sprintf_paren_stringers _ _
      | some p =>
        refine ⟨c.Name ++ " (" ++ sc.Name ++ ") " ++ p, ?_⟩
        simp only [classifyCodes, hc, hs, hp]
        exact Sprintf_three _ _ _

/-- C11, counterexample: on the nil pointer of type `*usb.Descriptor` the type switch of
Classify takes the descriptor case, the field access `val.Class` panics, and no string is
returned. -/
theorem Classify_nil_descriptor_panics :
    Classify sampleTables (.descriptor none) = .error .nilDereference
      ∧ ¬ ∃ s, Classify sampleTables (.descriptor none) = .ok s := by
  refine ⟨rfl, ?_⟩
  rintro ⟨s, hs⟩
  simp [Classify] at hs

/-- C11, amended: for every table and every value other than the nil descriptor reference,
Classify returns a string. -/
theorem Classify_returns (t : Tables) (val : Value) (hval : val ≠ .descriptor none) :
    ∃ s, Classify t val = .ok s := by
  cases val with
  | descriptor ptr =>
    cases ptr with
    | none => exact absurd rfl hval
    | some d => exact classifyCodes_returns t d.Class d.SubClass d.Protocol
  | interfaceSetup i => exact classifyCodes_returns t i.IfClass i.IfSubClass i.IfProtocol
  | other n => exact ⟨_, Sprintf_unknown_type _⟩

/-- Witness of C11, amended: an interface setup of a class the sample table does not
have. -/
theorem Classify_returns_witness :
    ∃ s, Classify sampleTables (.interfaceSetup ⟨0xff, 1, 2⟩) = .ok s :=
  Classify_returns sampleTables (.interfaceSetup ⟨0xff, 1, 2⟩) (by simp)

/-! ## The marker "Unknown" -/

/-- A text that contains the marker still contains it when more text follows. -/
theorem hasUnknownMarker_append (a b : String) (h : hasUnknownMarker a) :
    hasUnknownMarker (a ++ b) := by
  unfold hasUnknownMarker at *
  rw [String.data_append]
  exact h.trans (List.prefix_append a.data b.data).isInfix

theorem hasUnknownMarker_open_paren : hasUnknownMarker "Unknown (" := by
  unfold hasUnknownMarker
  decide

theorem hasUnknownMarker_space : hasUnknownMarker "Unknown " := by
  unfold hasUnknownMarker
  decide

theorem hasUnknownMarker_bad_verb : hasUnknownMarker "Unknown %!s(uint8=" := by
  unfold hasUnknownMarker
  decide

/-- C12, counterexample: class 0x09 is a key of the sample class table and the subclass
code 0x00 is not a key of its subclass mapping (a recognised top-level code with an
unrecognised nested code), and Classify returns "Hub", which does not contain
"Unknown". -/
theorem Classify_nested_absent_no_marker :
    (∃ c, sampleTables.Classes.index rootHub.Class = some c
        ∧ c.SubClass.index rootHub.SubClass = none)
      ∧ Classify sampleTables (.descriptor (some rootHub)) = .ok "Hub"
      ∧ ¬ ∃ s, Classify sampleTables (.descriptor (some rootHub)) = .ok s
          ∧ hasUnknownMarker s := by
  have h : Classify sampleTables (.descriptor (some rootHub)) = .ok "Hub" := rfl
  refine ⟨⟨_, rfl, rfl⟩, h, ?_⟩
  rintro ⟨s, hs, hm⟩
  rw [h] at hs
  injection hs with hs
  subst hs
  unfold hasUnknownMarker at hm
  revert hm
  decide

/-- C12, amended: the string returned contains "Unknown" when Describe gets a value that
is not a descriptor reference, a descriptor whose vendor code is not a key of the vendor
table, or a descriptor whose vendor code is a key and whose product code is not a key of
the product mapping of that vendor; and when Classify gets a value that is neither a
descriptor reference nor an interface setup, or a descriptor or interface setup whose
class code is not a key of the class table. -/
theorem unknown_marker (idString : ID → String) (t : Tables) (val : Value) :
    (val.isDescriptor = false →
        ∃ s, Describe idString t val = .ok s ∧ hasUnknownMarker s)
      ∧ (∀ d, val = .descriptor (some d) → t.Vendors.index d.Vendor = none →
        ∃ s, Describe idString t val = .ok s ∧ hasUnknownMarker s)
      ∧ (∀ d v, val = .descriptor (some d) → t.Vendors.index d.Vendor = some v →
          v.Product.index d.Product = none →
        ∃ s, Describe idString t val = .ok s ∧ hasUnknownMarker s)
      ∧ (val.isDescriptor = false → val.isInterfaceSetup = false →
        ∃ s, Classify t val = .ok s ∧ hasUnknownMarker s)
      ∧ (∀ cls sub proto, val.hasCodes cls sub proto → t.Classes.index cls = none →
        ∃ s, Classify t val = .ok s ∧ hasUnknownMarker s) := by
  refine ⟨?_, ?_, ?_, ?_, ?_⟩
  · intro hval
    refine ⟨"Unknown (" ++ val.typeName ++ ")", ?_,
      hasUnknownMarker_append _ _ (hasUnknownMarker_append _ _ hasUnknownMarker_open_paren)⟩
    cases val with
    | descriptor ptr => simp [Value.isDescriptor] at hval
    | interfaceSetup i => exact Sprintf_unknown_type _
    | other n => exact Sprintf_unknown_type _
  · intro d hd hv
    subst hd
    refine ⟨"Unknown " ++ idString d.Vendor ++ ":" ++ idString d.Product, ?_,
      hasUnknownMarker_append _ _ (hasUnknownMarker_append _ _
        (hasUnknownMarker_append _ _ hasUnknownMarker_space))⟩
    simp only [Describe, hv]
    exact Sprintf_unknown_ids _ _
  · intro d v hd hv hp
    subst hd
    refine ⟨"Unknown (" ++ v.Name ++ ")", ?_,
      hasUnknownMarker_append _ _ (hasUnknownMarker_append _ _ hasUnknownMarker_open_paren)⟩
    simp only [Describe, hv, hp]
    exact Sprintf_unknown_paren _
  · intro hd hi
    refine ⟨"Unknown (" ++ val.typeName ++ ")", ?_,
      hasUnknownMarker_append _ _ (hasUnknownMarker_append _ _ hasUnknownMarker_open_paren)⟩
    cases val with
    | descriptor ptr => simp [Value.isDescriptor] at hd
    | interfaceSetup i => simp [Value.isInterfaceSetup] at hi
    | other n => exact Sprintf_unknown_type _
  · intro cls sub proto hval hc
    refine ⟨_, Classify_class_absent t val cls sub proto hval hc, ?_⟩
    exact hasUnknownMarker_append _ _ (hasUnknownMarker_append _ _
      (hasUnknownMarker_append _ _ (hasUnknownMarker_append _ _
        (hasUnknownMarker_append _ _ (hasUnknownMarker_append _ _
          hasUnknownMarker_bad_verb)))))

/-- Witness of C12, amended: the five cases on the sample table. -/
theorem unknown_marker_witness :
    (∃ s, Describe sampleIdString sampleTables (.other "int") = .ok s ∧ hasUnknownMarker s)
      ∧ (∃ s, Describe sampleIdString sampleTables (.descriptor (some ⟨0x046d, 2, 0, 0, 0⟩))
            = .ok s ∧ hasUnknownMarker s)
      ∧ (∃ s, Describe sampleIdString sampleTables (.descriptor (some ⟨0x1d6b, 3, 9, 0, 0⟩))
            = .ok s ∧ hasUnknownMarker s)
      ∧ (∃ s, Classify sampleTables (.other "int") = .ok s ∧ hasUnknownMarker s)
      ∧ (∃ s, Classify sampleTables (.interfaceSetup ⟨0xff, 1, 2⟩) = .ok s
            ∧ hasUnknownMarker s) :=
  ⟨(unknown_marker sampleIdString sampleTables (.other "int")).1 rfl,
   (unknown_marker sampleIdString sampleTables
      (.descriptor (some ⟨0x046d, 2, 0, 0, 0⟩))).2.1 _ rfl rfl,
   (unknown_marker sampleIdString sampleTables
      (.descriptor (some ⟨0x1d6b, 3, 9, 0, 0⟩))).2.2.1 _
      ⟨"Linux Foundation", [(0x0002, "2.0 root hub")]⟩ rfl rfl rfl,
   (unknown_marker sampleIdString sampleTables (.other "int")).2.2.2.1 rfl rfl,
   (unknown_marker sampleIdString sampleTables
      (.interfaceSetup ⟨0xff, 1, 2⟩)).2.2.2.2 0xff 1 2 ⟨rfl, rfl, rfl⟩ rfl⟩

/-! ## The tables after a call -/

/-- An evaluation that touches no package-level variable leaves the tables as they are. -/
theorem GoM.eval_tables {α : Type} (r : Except Fault α) (t : Tables) :
    (GoM.eval r t).2 = t ∧ (GoM.eval r t).1 = r := ⟨rfl, rfl⟩

/-- The step language can tell a body that assigns from one that does not: an assignment
to `Vendors` leaves other tables than it found. -/
theorem GoM.writeVendors_changes : (GoM.writeVendors [] sampleTables).2 ≠ sampleTables := by
  intro h
  have hlen := congrArg (fun t => t.Vendors.length) h
  simp [GoM.writeVendors, sampleTables] at hlen

/-- The step of Describe: the tables after it and its outcome. -/
theorem DescribeStep_spec (idString : ID → String) (t : Tables) (val : Value) :
    (DescribeStep idString val t).2 = t
      ∧ (DescribeStep idString val t).1 = Describe idString t val := by
  cases val with
  | descriptor ptr =>
    cases ptr with
    | none => exact ⟨rfl, rfl⟩
    | some d =>
      simp only [DescribeStep, Describe, GoM.bind, GoM.readVendors]
      cases t.Vendors.index d.Vendor with
      | none => exact ⟨rfl, rfl⟩
      | some v =>
        dsimp only
        cases v.Product.index d.Product with
        | none => exact ⟨rfl, rfl⟩
        | some p => exact ⟨rfl, rfl⟩
  | interfaceSetup i => exact ⟨rfl, rfl⟩
  | other n => exact ⟨rfl, rfl⟩

/-- The step of the second half of Classify: the tables after it and its outcome. -/
theorem classifyCodesStep_spec (t : Tables) (cls sub proto : uint8) :
    (classifyCodesStep cls sub proto t).2 = t
      ∧ (classifyCodesStep cls sub proto t).1 = classifyCodes t cls sub proto := by
  simp only [classifyCodesStep, classifyCodes, GoM.bind, GoM.readClasses]
  cases t.Classes.index cls with
  | none => exact ⟨rfl, rfl⟩
  | some c =>
    dsimp only
    cases c.SubClass.index sub with
    | none => exact ⟨rfl, rfl⟩
    | some sc =>
      dsimp only
      cases sc.Protocol.index proto with
      | none => exact ⟨rfl, rfl⟩
      | some p => exact ⟨rfl, rfl⟩

/-- C13: neither Describe nor Classify changes the reference table. As steps on the
package-level variables, for every table and every input, the tables after the call
(vendor table and class table, nested mappings included) are the tables before it, also
when a looked-up code is absent and when the call panics; and the outcome of each step is
the outcome of the function on the table. -/
theorem calls_leave_tables (idString : ID → String) (t : Tables) (val : Value) :
    (DescribeStep idString val t).2 = t
      ∧ (ClassifyStep val t).2 = t
      ∧ (DescribeStep idString val t).1 = Describe idString t val
      ∧ (ClassifyStep val t).1 = Classify t val := by
  refine ⟨(DescribeStep_spec idString t val).1, ?_, (DescribeStep_spec idString t val).2, ?_⟩
  · cases val with
    | descriptor ptr =>
      cases ptr with
      | none => rfl
      | some d => exact (classifyCodesStep_spec t d.Class d.SubClass d.Protocol).1
    | interfaceSetup i => exact (classifyCodesStep_spec t i.IfClass i.IfSubClass i.IfProtocol).1
    | other n => rfl
  · cases val with
    | descriptor ptr =>
      cases ptr with
      | none => rfl
      | some d => exact (classifyCodesStep_spec t d.Class d.SubClass d.Protocol).2
    | interfaceSetup i => exact (classifyCodesStep_spec t i.IfClass i.IfSubClass i.IfProtocol).2
    | other n => rfl

/-! ## What the results depend on -/

/-- C14: a descriptor and an interface setup with the same class, subclass and protocol
codes are classified alike, on every table. -/
theorem Classify_descriptor_eq_interfaceSetup (t : Tables) (d : Descriptor)
    (s : InterfaceSetup)
    (hc : d.Class = s.IfClass) (hs : d.SubClass = s.IfSubClass)
    (hp : d.Protocol = s.IfProtocol) :
    Classify t (.descriptor (some d)) = Classify t (.interfaceSetup s) := by
  simp only [Classify, hc, hs, hp]

/-- Witness of C14: a keyboard descriptor and the interface setup with its codes. -/
theorem Classify_descriptor_eq_interfaceSetup_witness :
    Classify sampleTables (.descriptor (some ⟨0x046d, 0xc31c, 0x03, 0x01, 0x01⟩))
      = Classify sampleTables (.interfaceSetup ⟨0x03, 0x01, 0x01⟩) :=
  Classify_descriptor_eq_interfaceSetup sampleTables ⟨0x046d, 0xc31c, 0x03, 0x01, 0x01⟩
    ⟨0x03, 0x01, 0x01⟩ rfl rfl rfl

/-- C15: the result of Describe depends only on the vendor code, the product code and the
vendor table: two descriptors with the same vendor and product codes, on two tables with
the same vendor table, are described alike, whatever their class, subclass and protocol
codes and whatever the class tables. -/
theorem Describe_depends_on_vendor_product (idString : ID → String) (t1 t2 : Tables)
    (d1 d2 : Descriptor)
    (hv : d1.Vendor = d2.Vendor) (hp : d1.Product = d2.Product)
    (ht : t1.Vendors = t2.Vendors) :
    Describe idString t1 (.descriptor (some d1))
      = Describe idString t2 (.descriptor (some d2)) := by
  simp only [Describe, hv, hp, ht]

/-- Witness of C15: the root hub on the sample table, and a descriptor with its vendor and
product codes and other class codes on a table without any class. -/
theorem Describe_depends_on_vendor_product_witness :
    Describe sampleIdString sampleTables (.descriptor (some rootHub))
      = Describe sampleIdString vendorsOnlyTables
          (.descriptor (some ⟨0x1d6b, 0x0002, 0xff, 1, 2⟩)) :=
  Describe_depends_on_vendor_product sampleIdString sampleTables vendorsOnlyTables rootHub
    ⟨0x1d6b, 0x0002, 0xff, 1, 2⟩ rfl rfl rfl

end usbid
